import Mathlib

/-!
Verification of the msgmux type-based message dispatcher.

The Go package keeps a map from a message's concrete struct type to a single
handler function.  `Handle` validates a candidate handler's reflected shape
and inserts it (panicking on an invalid shape or a duplicate key), and
`DispatchContext` routes a message value to the handler registered for its
concrete type.  We embed the reflection data each routine inspects — a type's
kind, name, whether it implements `context.Context`, and a function type's
input/output lists — and give the registry, validation, dispatch and
invocation paths as executable Lean functions mirroring `mux.go`.
-/

namespace Msgmux

/-- The reflect kinds the dispatcher's checks can encounter. -/
inductive GoKind where
  | kstruct
  | kinterface
  | kfunc
  | kptr
  | kint
  | kstring
  | kslice
  | kbool
deriving DecidableEq

/-- Rendering of a reflect kind, as Go's `Kind.String` prints it in the
`fmt.Errorf` messages. -/
def kindStr : GoKind → String
  | .kstruct => "struct"
  | .kinterface => "interface"
  | .kfunc => "func"
  | .kptr => "ptr"
  | .kint => "int"
  | .kstring => "string"
  | .kslice => "slice"
  | .kbool => "bool"

/-- A non-function Go type as seen through reflection: its identity, kind,
declared name, and whether it implements the `context.Context` interface.
Two distinct types (distinct `id`) may share a kind and a name, as a
user-defined interface named `error` shares both with the builtin `error`. -/
structure DataType where
  id : Nat
  kind : GoKind
  name : String
  implementsContext : Bool
deriving DecidableEq

/-- The builtin `error` interface type. -/
def errorType : DataType := ⟨0, GoKind.kinterface, "error", false⟩

/-- The `context.Context` interface type itself. -/
def contextContextType : DataType := ⟨1, GoKind.kinterface, "Context", true⟩

/-- A context value handed to dispatch: `context.Background()` or any other
context instance, distinguished by identity. -/
inductive CtxVal where
  | background
  | custom (id : Nat)
deriving DecidableEq

/-- A message value: its concrete runtime type together with a payload
distinguishing different values of the same type.  A `nil` message is
modelled as `Option.none` at the dispatch interface. -/
structure MsgVal where
  ty : DataType
  payload : Nat
deriving DecidableEq

/-- The value a handler returns through its single (interface-kind) output:
`nil`, or a non-nil value that does or does not implement the builtin
`error` interface (`isError`), carrying the dynamic type's description. -/
inductive RetVal where
  | vnil
  | vsome (isError : Bool) (descr : String)
deriving DecidableEq

/-- The body of a handler function, by arity: what the call computes when
invoked with one argument (the message) or two (context, then message).
`implNone` stands for functions of any other arity, which the mux never
invokes. -/
inductive FuncImpl where
  | impl1 (f : MsgVal → RetVal)
  | impl2 (f : CtxVal → MsgVal → RetVal)
  | implNone

/-- A Go function value: its reflected input and output type lists and its
body. -/
structure GoFunc where
  ins : List DataType
  outs : List DataType
  impl : FuncImpl

/-- A function value's body matches its reflected arity. -/
def GoFunc.wf (f : GoFunc) : Prop :=
  match f.impl with
  | .impl1 _ => f.ins.length = 1
  | .impl2 _ => f.ins.length = 2
  | .implNone => f.ins.length ≠ 1 ∧ f.ins.length ≠ 2

/-- A candidate value passed to `Handle`: the untyped nil interface, a
non-function value of some type (whose kind is therefore not `Func`), or a
function value. -/
inductive HandlerCand where
  | nilCand
  | nonFunc (t : DataType)
  | funcCand (f : GoFunc)

/-- Outcome of `validateHandler`: an accepted shape, a returned error
(which `Handle` turns into a panic), or a panic raised inside validation
itself (calling `Kind()` on the nil `reflect.Type`). -/
inductive VResult where
  | ok
  | verr (msg : String)
  | vpanic (msg : String)
deriving DecidableEq

/-- The Go runtime's nil-dereference panic message. -/
def nilDerefMsg : String :=
  "runtime error: invalid memory address or nil pointer dereference"

/-- The input-parameter switch of `validateHandler` (mux.go lines 141-162):
arity 1 requires a struct parameter; arity 2 requires an interface-kind
first parameter implementing `context.Context` and a struct second
parameter; any other arity is rejected. -/
def checkInputs : List DataType → Option String
  | [p0] =>
    if p0.kind ≠ GoKind.kstruct then
      some ("msgmux: fn MessageHandler input parameter should be a struct (got: "
        ++ kindStr p0.kind ++ ")")
    else
      none
  | [p0, p1] =>
    if p0.kind ≠ GoKind.kinterface then
      some ("msgmux: fn MessageHandler 1st input parameter should be an context.Context (got: "
        ++ kindStr p0.kind ++ ")")
    else if p0.implementsContext = false then
      some ("msgmux: fn MessageHandler 1st input parameter should be context.Context (got: "
        ++ kindStr p0.kind ++ ")")
    else if p1.kind ≠ GoKind.kstruct then
      some ("msgmux: fn MessageHandler 2nd input parameter should be a struct (got: "
        ++ kindStr p1.kind ++ ")")
    else
      none
  | ins =>
    some ("msgmux: fn MessageHandler should have 1 or 2 input parameters (got: "
      ++ toString ins.length ++ ")")

/-- The output checks of `validateHandler` (mux.go lines 164-175): exactly
one output, of interface kind, named `error`. -/
def checkOutput : List DataType → Option String
  | [o] =>
    if o.kind ≠ GoKind.kinterface then
      some ("msgmux: fn MessageHandler output parameter should be an error (got: "
        ++ kindStr o.kind ++ ")")
    else if o.name ≠ "error" then
      some ("msgmux: fn MessageHandler output parameter should be an error (got: "
        ++ o.name ++ ")")
    else
      none
  | outs =>
    some ("msgmux: fn MessageHandler should have 1 output parameter (got: "
      ++ toString outs.length ++ ")")

/-- `validateHandler` (mux.go lines 136-178).  For a nil candidate,
`reflect.TypeOf(fn)` is the nil `reflect.Type` and the `Kind()` call
panics; a non-function value's kind is not `Func` and is rejected; a
function value goes through the input switch and then the output checks. -/
def validateHandler : HandlerCand → VResult
  | .nilCand => .vpanic nilDerefMsg
  | .nonFunc t =>
    .verr ("msgmux: fn MessageHandler is not a function (got: " ++ kindStr t.kind ++ ")")
  | .funcCand f =>
    match checkInputs f.ins with
    | some e => .verr e
    | none =>
      match checkOutput f.outs with
      | some e => .verr e
      | none => .ok

/-- The handler map of a `DispatchMux`, keyed by message type.  `none`
models the nil (never materialized) map; `some` the made map, as an
association list with distinct keys. -/
abbrev Registry := Option (List (DataType × GoFunc))

/-- Go map lookup `m.handlers[msgType]`. -/
def lookupH : List (DataType × GoFunc) → DataType → Option GoFunc
  | [], _ => none
  | (k, f) :: rest, key => if k = key then some f else lookupH rest key

/-- The `switch fnType.NumIn()` of `Handle` (mux.go lines 68-76): the
registry key is the sole parameter in unary form, the second parameter in
binary form. -/
def msgTypeOf : List DataType → Option DataType
  | [t] => some t
  | [_, t] => some t
  | _ => none

/-- `DispatchMux.Handle` (mux.go lines 58-83), returning the registry state
after the call together with `some panicMessage` when the call panics.
Validation failure panics before any mutation; then the nil map is
materialized, the message type extracted (the switch's default panics),
the duplicate check panics, and otherwise the entry is inserted. -/
def handle (m : Registry) (fn : HandlerCand) : Registry × Option String :=
  match validateHandler fn with
  | .verr e => (m, some e)
  | .vpanic e => (m, some e)
  | .ok =>
    let hs := m.getD []
    match fn with
    | .funcCand f =>
      match msgTypeOf f.ins with
      | none => (some hs, some "msgmux: invalid handler function signature")
      | some key =>
        match lookupH hs key with
        | some _ =>
          (some hs, some ("msgmux: handler for message " ++ key.name ++ " already registered"))
        | none => (some (hs ++ [(key, f)]), none)
    | _ => (some hs, some "reflect: NumIn of non-func type")

/-- Outcome of a dispatch call: success (nil error), a returned error, or a
panic. -/
inductive DResult where
  | ok
  | err (msg : String)
  | panicked (msg : String)
deriving DecidableEq

/-- The tail of `invokeHandler` (mux.go lines 128-133): the single output
value is returned as nil on `IsNil`, and otherwise asserted to the builtin
`error` interface — a non-nil value not implementing it makes the type
assertion panic. -/
def interpretOut : RetVal → DResult
  | .vnil => DResult.ok
  | .vsome true m => DResult.err m
  | .vsome false d =>
    DResult.panicked ("interface conversion: " ++ d ++ " is not error: missing method Error")

/-- `invokeHandler` (mux.go lines 113-134): switch on the handler's arity,
call it with the message (unary) or the context and the message (binary),
and interpret the single output.  The mismatch rows model `reflect.Call`
panicking when a body's arity disagrees with its reflected type, which
never happens for well-formed function values. -/
def invokeHandler (ctx : CtxVal) (h : GoFunc) (msg : MsgVal) : DResult :=
  match h.ins.length, h.impl with
  | 1, .impl1 f => interpretOut (f msg)
  | 2, .impl2 f => interpretOut (f ctx msg)
  | 1, _ => DResult.panicked "reflect: Call with wrong argument count"
  | 2, _ => DResult.panicked "reflect: Call with wrong argument count"
  | _, _ => DResult.panicked "msgmux: invalid handler function signature"

/-- The list of calls `invokeHandler` makes to the handler's body, each
recorded as the context argument passed (none in unary form) and the
message argument passed. -/
def invokeCalls (ctx : CtxVal) (h : GoFunc) (msg : MsgVal) : List (Option CtxVal × MsgVal) :=
  match h.ins.length, h.impl with
  | 1, .impl1 _ => [(none, msg)]
  | 2, .impl2 _ => [(some ctx, msg)]
  | _, _ => []

/-- `DispatchMux.DispatchContext` (mux.go lines 88-104).  A nil message's
runtime type is the nil `reflect.Type`, so the `Kind()` call panics; a
non-struct kind returns an error; a nil handler map returns success; a
missing entry returns the no-handler error; otherwise the handler is
invoked. -/
def dispatchContext (m : Registry) (ctx : CtxVal) (msg : Option MsgVal) : DResult :=
  match msg with
  | none => DResult.panicked nilDerefMsg
  | some v =>
    if v.ty.kind ≠ GoKind.kstruct then
      DResult.err ("msgmux: msg should be a struct (got: " ++ kindStr v.ty.kind ++ ")")
    else
      match m with
      | none => DResult.ok
      | some hs =>
        match lookupH hs v.ty with
        | none => DResult.err ("msgmux: no handler registered for message " ++ v.ty.name)
        | some h => invokeHandler ctx h v

/-- `DispatchMux.Dispatch` (mux.go lines 109-111): `DispatchContext` with
`context.Background()`. -/
def dispatch (m : Registry) (msg : Option MsgVal) : DResult :=
  dispatchContext m CtxVal.background msg

/-- The calls a `dispatchContext` run makes to the selected handler's body. -/
def dispatchCalls (m : Registry) (ctx : CtxVal) (msg : Option MsgVal) :
    List (Option CtxVal × MsgVal) :=
  match msg with
  | none => []
  | some v =>
    if v.ty.kind ≠ GoKind.kstruct then []
    else
      match m with
      | none => []
      | some hs =>
        match lookupH hs v.ty with
        | none => []
        | some h => invokeCalls ctx h v

/-- The calls a `dispatch` run makes, mirroring `Dispatch`'s delegation. -/
def dispatchCallsTop (m : Registry) (msg : Option MsgVal) : List (Option CtxVal × MsgVal) :=
  dispatchCalls m CtxVal.background msg

/-- What the handler's body returns for a given context and message. -/
def handlerRet (h : GoFunc) (ctx : CtxVal) (v : MsgVal) : RetVal :=
  match h.impl with
  | .impl1 f => f v
  | .impl2 f => f ctx v
  | .implNone => RetVal.vnil

/-- The context argument a handler's body receives: the dispatch context in
binary form, nothing in unary form. -/
def callCtx (h : GoFunc) (ctx : CtxVal) : Option CtxVal :=
  match h.impl with
  | .impl2 _ => some ctx
  | _ => none

/-- A sample message struct type. -/
def orderCompletedType : DataType := ⟨10, GoKind.kstruct, "OrderCompleted", false⟩

/-- A second sample message struct type, never registered in the samples. -/
def shipOrderType : DataType := ⟨11, GoKind.kstruct, "ShipOrder", false⟩

/-- A user-defined interface type named `error`, distinct from the builtin
`error` interface. -/
def userErrorType : DataType := ⟨12, GoKind.kinterface, "error", false⟩

/-- A struct type whose method set implements `context.Context`: it
satisfies the capability although its kind is not `Interface`. -/
def myCtxStructType : DataType := ⟨13, GoKind.kstruct, "myCtx", true⟩

/-- A sample non-struct (string) type. -/
def stringType : DataType := ⟨14, GoKind.kstring, "string", false⟩

/-- A sample non-struct (int) type. -/
def intType : DataType := ⟨15, GoKind.kint, "int", false⟩

/-- A valid unary handler for `OrderCompleted` returning nil. -/
def okHandler : GoFunc :=
  ⟨[orderCompletedType], [errorType], FuncImpl.impl1 (fun _ => RetVal.vnil)⟩

/-- A valid binary handler for `OrderCompleted` returning nil. -/
def ctxHandler : GoFunc :=
  ⟨[contextContextType, orderCompletedType], [errorType], FuncImpl.impl2 (fun _ _ => RetVal.vnil)⟩

/-- A handler declared to return the user-defined `error` interface, whose
body returns a non-nil value not implementing the builtin `error`. -/
def userErrHandler : GoFunc :=
  ⟨[orderCompletedType], [userErrorType],
    FuncImpl.impl1 (fun _ => RetVal.vsome false "msgmux_test.myError")⟩

/-! ### Helper lemmas -/

/-- Inputs that validate have arity 1 or 2. -/
theorem checkInputs_none_length (ins : List DataType) (h : checkInputs ins = none) :
    ins.length = 1 ∨ ins.length = 2 := by
  match ins with
  | [] => simp [checkInputs] at h
  | [p0] => left; rfl
  | [p0, p1] => right; rfl
  | p0 :: p1 :: p2 :: rest => simp [checkInputs] at h

/-- Outputs that validate are a single interface-kind type named error. -/
theorem checkOutput_none_shape (outs : List DataType) (h : checkOutput outs = none) :
    ∃ o, outs = [o] ∧ o.kind = GoKind.kinterface ∧ o.name = "error" := by
  match outs with
  | [] => simp [checkOutput] at h
  | [o] =>
    refine ⟨o, rfl, ?_, ?_⟩ <;>
    · simp only [checkOutput] at h
      split at h
      · simp at h
      · split at h
        · simp at h
        · simp_all
  | o0 :: o1 :: rest => simp [checkOutput] at h

/-- Characterization of the unary input check. -/
theorem checkInputs_unary_iff (p : DataType) :
    checkInputs [p] = none ↔ p.kind = GoKind.kstruct := by
  simp only [checkInputs]
  by_cases h : p.kind = GoKind.kstruct <;> simp [h]

/-- Characterization of the binary input check. -/
theorem checkInputs_binary_iff (c p : DataType) :
    checkInputs [c, p] = none ↔
      (c.kind = GoKind.kinterface ∧ c.implementsContext = true ∧
        p.kind = GoKind.kstruct) := by
  simp only [checkInputs]
  by_cases h1 : c.kind = GoKind.kinterface
  · by_cases h2 : c.implementsContext = false
    · simp [h1, h2]
    · by_cases h3 : p.kind = GoKind.kstruct
      · simp [h1, h2, h3]
      · simp [h1, h2, h3]
  · simp [h1]

/-- Characterization of the single-output check. -/
theorem checkOutput_single_iff (o : DataType) :
    checkOutput [o] = none ↔ (o.kind = GoKind.kinterface ∧ o.name = "error") := by
  simp only [checkOutput]
  by_cases h1 : o.kind = GoKind.kinterface
  · by_cases h2 : o.name = "error" <;> simp [h1, h2]
  · simp [h1]

/-- Validation of a function candidate succeeds exactly when both check
stages pass. -/
theorem validate_funcCand_iff (f : GoFunc) :
    validateHandler (HandlerCand.funcCand f) = VResult.ok ↔
      (checkInputs f.ins = none ∧ checkOutput f.outs = none) := by
  simp only [validateHandler]
  cases h1 : checkInputs f.ins <;> cases h2 : checkOutput f.outs <;> simp

/-- A candidate that validates is a function whose input and output checks
both pass. -/
theorem validate_ok_parts (fn : HandlerCand) (h : validateHandler fn = VResult.ok) :
    ∃ f, fn = HandlerCand.funcCand f ∧ checkInputs f.ins = none ∧ checkOutput f.outs = none := by
  match fn with
  | .nilCand => simp [validateHandler] at h
  | .nonFunc t => simp [validateHandler] at h
  | .funcCand f =>
    refine ⟨f, rfl, ?_⟩
    simp only [validateHandler] at h
    cases hin : checkInputs f.ins with
    | some e => rw [hin] at h; simp at h
    | none =>
      cases hout : checkOutput f.outs with
      | some e => rw [hin, hout] at h; simp at h
      | none => exact ⟨rfl, rfl⟩

/-- `Handle` panics whenever validation does not succeed. -/
theorem handle_panics_of_not_ok (m : Registry) (fn : HandlerCand)
    (h : validateHandler fn ≠ VResult.ok) : ((handle m fn).2).isSome = true := by
  unfold handle
  cases hv : validateHandler fn with
  | ok => exact absurd hv h
  | verr e => simp
  | vpanic e => simp

/-! ### Claims -/

/-- C1: dispatching a struct-typed message on a registry on which no handler
has ever been successfully registered (nil handler map) returns success,
while dispatching it on a registry holding at least one handler but none
for that specific type returns the no-handler-registered error naming the
message type. -/
theorem mux_C1 (ctx : CtxVal) (v : MsgVal) (hstruct : v.ty.kind = GoKind.kstruct) :
    dispatchContext none ctx (some v) = DResult.ok ∧
    (∀ hs : List (DataType × GoFunc), hs ≠ [] → lookupH hs v.ty = none →
      dispatchContext (some hs) ctx (some v) =
        DResult.err ("msgmux: no handler registered for message " ++ v.ty.name)) := by
  constructor
  · simp [dispatchContext, hstruct]
  · intro hs hne hlook
    simp [dispatchContext, hstruct, hlook]

/-- Witness for C1 at `ShipOrder` with an `OrderCompleted` handler present. -/
theorem mux_C1_witness :
    dispatchContext none CtxVal.background (some ⟨shipOrderType, 0⟩) = DResult.ok ∧
    dispatchContext (some [(orderCompletedType, okHandler)]) CtxVal.background
        (some ⟨shipOrderType, 0⟩) =
      DResult.err ("msgmux: no handler registered for message " ++ shipOrderType.name) := by
  have h := mux_C1 CtxVal.background ⟨shipOrderType, 0⟩ rfl
  exact ⟨h.1, h.2 [(orderCompletedType, okHandler)] (by simp) (by rfl)⟩

/-- C2: with handler `h` registered for the message's concrete type,
dispatch invokes the handler exactly once, passing the dispatched value
itself (so every call carries a value of exactly the registered type), and
a nil handler result is returned as success while a non-nil error result
is returned unchanged. -/
theorem mux_C2 (hs : List (DataType × GoFunc)) (ctx : CtxVal) (v : MsgVal) (h : GoFunc)
    (hstruct : v.ty.kind = GoKind.kstruct)
    (hlook : lookupH hs v.ty = some h)
    (hwf : h.wf) (harity : h.ins.length = 1 ∨ h.ins.length = 2) :
    dispatchCalls (some hs) ctx (some v) = [(callCtx h ctx, v)] ∧
    (∀ c ∈ dispatchCalls (some hs) ctx (some v), c.2.ty = v.ty) ∧
    (handlerRet h ctx v = RetVal.vnil →
      dispatchContext (some hs) ctx (some v) = DResult.ok) ∧
    (∀ e, handlerRet h ctx v = RetVal.vsome true e →
      dispatchContext (some hs) ctx (some v) = DResult.err e) := by
  have hcalls : dispatchCalls (some hs) ctx (some v) = [(callCtx h ctx, v)] := by
    cases himpl : h.impl with
    | impl1 f =>
      have hlen : h.ins.length = 1 := by
        unfold GoFunc.wf at hwf
        rw [himpl] at hwf
        exact hwf
      simp [dispatchCalls, hstruct, hlook, invokeCalls, hlen, himpl, callCtx]
    | impl2 f =>
      have hlen : h.ins.length = 2 := by
        unfold GoFunc.wf at hwf
        rw [himpl] at hwf
        exact hwf
      simp [dispatchCalls, hstruct, hlook, invokeCalls, hlen, himpl, callCtx]
    | implNone =>
      unfold GoFunc.wf at hwf
      rw [himpl] at hwf
      rcases harity with h1 | h2
      · exact absurd h1 hwf.1
      · exact absurd h2 hwf.2
  refine ⟨hcalls, ?_, ?_, ?_⟩
  · intro c hc
    rw [hcalls] at hc
    simp at hc
    subst hc
    rfl
  · intro hret
    cases himpl : h.impl with
    | impl1 f =>
      have hlen : h.ins.length = 1 := by
        unfold GoFunc.wf at hwf; rw [himpl] at hwf; exact hwf
      simp only [handlerRet, himpl] at hret
      simp [dispatchContext, hstruct, hlook, invokeHandler, hlen, himpl, hret, interpretOut]
    | impl2 f =>
      have hlen : h.ins.length = 2 := by
        unfold GoFunc.wf at hwf; rw [himpl] at hwf; exact hwf
      simp only [handlerRet, himpl] at hret
      simp [dispatchContext, hstruct, hlook, invokeHandler, hlen, himpl, hret, interpretOut]
    | implNone =>
      unfold GoFunc.wf at hwf
      rw [himpl] at hwf
      rcases harity with h1 | h2
      · exact absurd h1 hwf.1
      · exact absurd h2 hwf.2
  · intro e hret
    cases himpl : h.impl with
    | impl1 f =>
      have hlen : h.ins.length = 1 := by
        unfold GoFunc.wf at hwf; rw [himpl] at hwf; exact hwf
      simp only [handlerRet, himpl] at hret
      simp [dispatchContext, hstruct, hlook, invokeHandler, hlen, himpl, hret, interpretOut]
    | impl2 f =>
      have hlen : h.ins.length = 2 := by
        unfold GoFunc.wf at hwf; rw [himpl] at hwf; exact hwf
      simp only [handlerRet, himpl] at hret
      simp [dispatchContext, hstruct, hlook, invokeHandler, hlen, himpl, hret, interpretOut]
    | implNone =>
      unfold GoFunc.wf at hwf
      rw [himpl] at hwf
      rcases harity with h1 | h2
      · exact absurd h1 hwf.1
      · exact absurd h2 hwf.2

/-- Witness for C2: the registered `OrderCompleted` handler is called once
with the dispatched value and its nil return becomes success. -/
theorem mux_C2_witness :
    dispatchCalls (some [(orderCompletedType, okHandler)]) CtxVal.background
        (some ⟨orderCompletedType, 3⟩) =
      [(none, ⟨orderCompletedType, 3⟩)] ∧
    dispatchContext (some [(orderCompletedType, okHandler)]) CtxVal.background
        (some ⟨orderCompletedType, 3⟩) = DResult.ok := by
  have h := mux_C2 [(orderCompletedType, okHandler)] CtxVal.background
    ⟨orderCompletedType, 3⟩ okHandler rfl (by rfl) (by unfold GoFunc.wf okHandler; rfl)
    (Or.inl rfl)
  refine ⟨?_, h.2.2.1 rfl⟩
  have h1 := h.1
  simpa [callCtx, okHandler] using h1

/-- C3: a registration call that fails (panics) leaves the registry exactly
as it was before the call — the mapping, which handler each type maps to,
and whether the mapping was ever materialized — so after a rejected
duplicate registration the first handler remains the sole registrant. -/
theorem mux_C3 (m : Registry) (fn : HandlerCand) (e : String)
    (hfail : (handle m fn).2 = some e) : (handle m fn).1 = m := by
  cases hv : validateHandler fn with
  | verr e2 => simp [handle, hv]
  | vpanic e2 => simp [handle, hv]
  | ok =>
    obtain ⟨f, rfl, hins, houts⟩ := validate_ok_parts fn hv
    obtain ⟨key, hkeyEq⟩ : ∃ key, msgTypeOf f.ins = some key := by
      rcases checkInputs_none_length f.ins hins with h1 | h2
      · match f.ins, h1 with
        | [t], _ => exact ⟨t, rfl⟩
      · match f.ins, h2 with
        | [t0, t1], _ => exact ⟨t1, rfl⟩
    cases hdup : lookupH (m.getD []) key with
    | none =>
      have hnone : (handle m (HandlerCand.funcCand f)).2 = none := by
        simp [handle, hv, hkeyEq, hdup]
      rw [hnone] at hfail
      simp at hfail
    | some g =>
      have hm : ∃ hs, m = some hs := by
        cases m with
        | none => simp [lookupH] at hdup
        | some hs => exact ⟨hs, rfl⟩
      obtain ⟨hs, rfl⟩ := hm
      simp only [Option.getD_some] at hdup
      simp [handle, hv, hkeyEq, hdup]

/-- Witness for C3: a rejected duplicate registration for `OrderCompleted`
leaves the registry holding exactly the first handler. -/
theorem mux_C3_witness :
    (handle (some [(orderCompletedType, okHandler)]) (HandlerCand.funcCand okHandler)).1 =
      some [(orderCompletedType, okHandler)] :=
  mux_C3 (some [(orderCompletedType, okHandler)]) (HandlerCand.funcCand okHandler)
    ("msgmux: handler for message OrderCompleted already registered") rfl

/-- C4 counterexample: the concrete handler whose sole output is a
user-defined interface type named error — not the builtin error type — is
accepted and registered by `Handle` without panicking, refuting the
original claim's assertion that a function without exactly one output of
the error type is fatal. -/
theorem mux_C4_cex :
    userErrHandler.outs = [userErrorType] ∧ userErrorType ≠ errorType ∧
    ((handle none (HandlerCand.funcCand userErrHandler)).2).isSome = false :=
  ⟨rfl, by decide, rfl⟩

/-- C4 (amended): each rejected shape — the nil candidate, a non-function
value, a function with zero or more than two inputs, a function whose
message parameter (sole in unary form, second in binary form) is not a
struct, or a function without exactly one interface-kind output named
error (rather than requiring exactly the builtin error type) — makes
`Handle` panic; conversely a function of an accepted shape — unary struct
to error, or `context.Context` and struct to error — passes validation. -/
theorem mux_C4 (m : Registry) :
    ((handle m HandlerCand.nilCand).2.isSome = true) ∧
    (∀ t : DataType, t.kind ≠ GoKind.kfunc →
      ((handle m (HandlerCand.nonFunc t)).2.isSome = true)) ∧
    (∀ f : GoFunc, f.ins.length = 0 ∨ f.ins.length > 2 →
      ((handle m (HandlerCand.funcCand f)).2.isSome = true)) ∧
    (∀ f p, f.ins = [p] → p.kind ≠ GoKind.kstruct →
      ((handle m (HandlerCand.funcCand f)).2.isSome = true)) ∧
    (∀ f c p, f.ins = [c, p] → p.kind ≠ GoKind.kstruct →
      ((handle m (HandlerCand.funcCand f)).2.isSome = true)) ∧
    (∀ f : GoFunc, (¬ ∃ o, f.outs = [o] ∧ o.kind = GoKind.kinterface ∧ o.name = "error") →
      ((handle m (HandlerCand.funcCand f)).2.isSome = true)) ∧
    (∀ f p, f.ins = [p] → p.kind = GoKind.kstruct → f.outs = [errorType] →
      validateHandler (HandlerCand.funcCand f) = VResult.ok) ∧
    (∀ f p, f.ins = [contextContextType, p] → p.kind = GoKind.kstruct →
      f.outs = [errorType] → validateHandler (HandlerCand.funcCand f) = VResult.ok) := by
  refine ⟨?_, ?_, ?_, ?_, ?_, ?_, ?_, ?_⟩
  · exact handle_panics_of_not_ok m HandlerCand.nilCand (by simp [validateHandler])
  · intro t ht
    exact handle_panics_of_not_ok m (HandlerCand.nonFunc t) (by simp [validateHandler])
  · intro f hlen
    refine handle_panics_of_not_ok m (HandlerCand.funcCand f) ?_
    intro hok
    obtain ⟨g, hg, hins, houts⟩ := validate_ok_parts _ hok
    cases hg
    rcases checkInputs_none_length f.ins hins with h1 | h2 <;> omega
  · intro f p hins hp
    refine handle_panics_of_not_ok m (HandlerCand.funcCand f) ?_
    intro hok
    obtain ⟨g, hg, hchk, houts⟩ := validate_ok_parts _ hok
    cases hg
    rw [hins] at hchk
    exact hp ((checkInputs_unary_iff p).mp hchk)
  · intro f c p hins hp
    refine handle_panics_of_not_ok m (HandlerCand.funcCand f) ?_
    intro hok
    obtain ⟨g, hg, hchk, houts⟩ := validate_ok_parts _ hok
    cases hg
    rw [hins] at hchk
    exact hp ((checkInputs_binary_iff c p).mp hchk).2.2
  · intro f hout
    refine handle_panics_of_not_ok m (HandlerCand.funcCand f) ?_
    intro hok
    obtain ⟨g, hg, hchk, houts⟩ := validate_ok_parts _ hok
    cases hg
    exact hout (checkOutput_none_shape f.outs houts)
  · intro f p hins hp houts
    refine (validate_funcCand_iff f).mpr ⟨?_, ?_⟩
    · rw [hins]
      exact (checkInputs_unary_iff p).mpr hp
    · rw [houts]
      exact (checkOutput_single_iff errorType).mpr ⟨rfl, rfl⟩
  · intro f p hins hp houts
    refine (validate_funcCand_iff f).mpr ⟨?_, ?_⟩
    · rw [hins]
      exact (checkInputs_binary_iff contextContextType p).mpr ⟨rfl, rfl, hp⟩
    · rw [houts]
      exact (checkOutput_single_iff errorType).mpr ⟨rfl, rfl⟩

/-- Witness for C4: a string value and a zero-argument function are fatal;
the sample unary and binary handlers validate. -/
theorem mux_C4_witness :
    ((handle none (HandlerCand.nonFunc stringType)).2.isSome = true) ∧
    ((handle none (HandlerCand.funcCand ⟨[], [], FuncImpl.implNone⟩)).2.isSome = true) ∧
    validateHandler (HandlerCand.funcCand okHandler) = VResult.ok ∧
    validateHandler (HandlerCand.funcCand ctxHandler) = VResult.ok := by
  refine ⟨(mux_C4 none).2.1 stringType (by decide), ?_, ?_, ?_⟩
  · exact (mux_C4 none).2.2.1 ⟨[], [], FuncImpl.implNone⟩ (Or.inl rfl)
  · exact (mux_C4 none).2.2.2.2.2.2.1 okHandler orderCompletedType rfl (by decide) rfl
  · exact (mux_C4 none).2.2.2.2.2.2.2 ctxHandler orderCompletedType rfl (by decide) rfl

/-- C5 counterexample: at the concrete handler whose sole output is a
user-defined interface type named error (distinct from the builtin error
type), validation succeeds, refuting the claim that acceptance holds only
for exactly the builtin error type. -/
theorem mux_C5_cex :
    ¬ (validateHandler (HandlerCand.funcCand userErrHandler) = VResult.ok ↔
        userErrorType = errorType) := by
  decide

/-- C5 amended: for a candidate whose inputs validate and which has exactly
one output, validation accepts if and only if the output type has
interface kind and is named error — not necessarily the builtin error
type, so a user-defined interface named error is also accepted. -/
theorem mux_C5 (f : GoFunc) (o : DataType)
    (hins : checkInputs f.ins = none) (houts : f.outs = [o]) :
    validateHandler (HandlerCand.funcCand f) = VResult.ok ↔
      (o.kind = GoKind.kinterface ∧ o.name = "error") := by
  rw [validate_funcCand_iff, houts]
  simp [hins, checkOutput_single_iff]

/-- Witness for C5: the builtin-error-returning sample handler is accepted. -/
theorem mux_C5_witness :
    validateHandler (HandlerCand.funcCand okHandler) = VResult.ok :=
  (mux_C5 okHandler errorType (by decide) rfl).mpr ⟨rfl, rfl⟩

/-- C6 counterexample: at the concrete struct type whose method set
implements the context interface, paired with a struct message parameter,
the first-parameter check rejects although the capability is satisfied,
refuting acceptance-iff-capability-satisfaction. -/
theorem mux_C6_cex :
    ¬ (checkInputs [myCtxStructType, orderCompletedType] = none ↔
        myCtxStructType.implementsContext = true) := by
  decide

/-- C6 amended: with a struct message parameter, the binary form's first
parameter is accepted if and only if it is of interface kind and
implements the context interface — a non-interface type satisfying the
capability is rejected. -/
theorem mux_C6 (c p : DataType) (hp : p.kind = GoKind.kstruct) :
    checkInputs [c, p] = none ↔
      (c.kind = GoKind.kinterface ∧ c.implementsContext = true) := by
  rw [checkInputs_binary_iff]
  simp [hp]

/-- Witness for C6: the context.Context interface itself is accepted before
a struct message parameter. -/
theorem mux_C6_witness :
    checkInputs [contextContextType, orderCompletedType] = none :=
  (mux_C6 contextContextType orderCompletedType rfl).mpr ⟨rfl, rfl⟩

/-- C7: dispatching a value whose concrete runtime type is not a struct
returns the invalid-message-shape error naming the value's kind, and never
panics, whatever the registry holds. -/
theorem mux_C7 (m : Registry) (ctx : CtxVal) (v : MsgVal)
    (hk : v.ty.kind ≠ GoKind.kstruct) :
    dispatchContext m ctx (some v) =
      DResult.err ("msgmux: msg should be a struct (got: " ++ kindStr v.ty.kind ++ ")") ∧
    (∀ p, dispatchContext m ctx (some v) ≠ DResult.panicked p) := by
  have heq : dispatchContext m ctx (some v) =
      DResult.err ("msgmux: msg should be a struct (got: " ++ kindStr v.ty.kind ++ ")") := by
    simp [dispatchContext, hk]
  exact ⟨heq, fun p hcontra => by rw [heq] at hcontra; exact DResult.noConfusion hcontra⟩

/-- Witness for C7: dispatching an int value on a nonempty registry yields
the invalid-shape error. -/
theorem mux_C7_witness :
    dispatchContext (some [(orderCompletedType, okHandler)]) CtxVal.background
        (some ⟨intType, 42⟩) =
      DResult.err ("msgmux: msg should be a struct (got: " ++ kindStr intType.kind ++ ")") :=
  (mux_C7 (some [(orderCompletedType, okHandler)]) CtxVal.background
    ⟨intType, 42⟩ (by decide)).1

/-- C8: `Dispatch` returns exactly what `DispatchContext` returns with the
default background context (and makes the same handler calls), and a
handler registered in binary form is invoked with the exact context
instance the caller passed to `DispatchContext` — the background context
when `Dispatch` is used. -/
theorem mux_C8 :
    (∀ (m : Registry) (msg : Option MsgVal),
      dispatch m msg = dispatchContext m CtxVal.background msg) ∧
    (∀ (m : Registry) (msg : Option MsgVal),
      dispatchCallsTop m msg = dispatchCalls m CtxVal.background msg) ∧
    (∀ (hs : List (DataType × GoFunc)) (ctx : CtxVal) (v : MsgVal) (h : GoFunc)
      (f : CtxVal → MsgVal → RetVal),
      v.ty.kind = GoKind.kstruct → lookupH hs v.ty = some h →
      h.impl = FuncImpl.impl2 f → h.ins.length = 2 →
      dispatchCalls (some hs) ctx (some v) = [(some ctx, v)]) ∧
    (∀ (hs : List (DataType × GoFunc)) (v : MsgVal) (h : GoFunc)
      (f : CtxVal → MsgVal → RetVal),
      v.ty.kind = GoKind.kstruct → lookupH hs v.ty = some h →
      h.impl = FuncImpl.impl2 f → h.ins.length = 2 →
      dispatchCallsTop (some hs) (some v) = [(some CtxVal.background, v)]) := by
  have hbin : ∀ (hs : List (DataType × GoFunc)) (ctx : CtxVal) (v : MsgVal) (h : GoFunc)
      (f : CtxVal → MsgVal → RetVal),
      v.ty.kind = GoKind.kstruct → lookupH hs v.ty = some h →
      h.impl = FuncImpl.impl2 f → h.ins.length = 2 →
      dispatchCalls (some hs) ctx (some v) = [(some ctx, v)] := by
    intro hs ctx v h f hstruct hlook himpl hlen
    simp [dispatchCalls, hstruct, hlook, invokeCalls, hlen, himpl]
  refine ⟨fun m msg => rfl, fun m msg => rfl, hbin, ?_⟩
  intro hs v h f hstruct hlook himpl hlen
  exact hbin hs CtxVal.background v h f hstruct hlook himpl hlen

/-- Witness for C8: the binary sample handler receives the custom context
passed to `DispatchContext`, and the background context under `Dispatch`. -/
theorem mux_C8_witness :
    dispatchCalls (some [(orderCompletedType, ctxHandler)]) (CtxVal.custom 7)
        (some ⟨orderCompletedType, 1⟩) =
      [(some (CtxVal.custom 7), ⟨orderCompletedType, 1⟩)] ∧
    dispatchCallsTop (some [(orderCompletedType, ctxHandler)])
        (some ⟨orderCompletedType, 1⟩) =
      [(some CtxVal.background, ⟨orderCompletedType, 1⟩)] := by
  constructor
  · exact mux_C8.2.2.1 [(orderCompletedType, ctxHandler)] (CtxVal.custom 7)
      ⟨orderCompletedType, 1⟩ ctxHandler (fun _ _ => RetVal.vnil) rfl rfl rfl rfl
  · exact mux_C8.2.2.2 [(orderCompletedType, ctxHandler)]
      ⟨orderCompletedType, 1⟩ ctxHandler (fun _ _ => RetVal.vnil) rfl rfl rfl rfl

/-- C9: dispatching a nil message panics on the nil runtime type's `Kind()`
call — through `DispatchContext` and through `Dispatch` — while every
non-nil non-struct message yields an ordinary error result. -/
theorem mux_C9 (m : Registry) (ctx : CtxVal) :
    dispatchContext m ctx none = DResult.panicked nilDerefMsg ∧
    dispatch m none = DResult.panicked nilDerefMsg ∧
    (∀ v : MsgVal, v.ty.kind ≠ GoKind.kstruct →
      ∃ e, dispatchContext m ctx (some v) = DResult.err e) := by
  refine ⟨rfl, rfl, ?_⟩
  intro v hk
  refine ⟨"msgmux: msg should be a struct (got: " ++ kindStr v.ty.kind ++ ")", ?_⟩
  simp [dispatchContext, hk]

/-- Witness for C9 on the empty registry: nil panics, a string message
errs. -/
theorem mux_C9_witness :
    dispatchContext none CtxVal.background none = DResult.panicked nilDerefMsg ∧
    (∃ e, dispatchContext none CtxVal.background (some ⟨stringType, 0⟩) = DResult.err e) :=
  ⟨(mux_C9 none CtxVal.background).1,
    (mux_C9 none CtxVal.background).2.2 ⟨stringType, 0⟩ (by decide)⟩

/-- C10: a handler whose declared output is a user-defined interface named
error passes validation and registers successfully, yet dispatching to it
panics when its non-nil return value does not implement the builtin error
interface — the type assertion in `invokeHandler` fails. -/
theorem mux_C10 :
    validateHandler (HandlerCand.funcCand userErrHandler) = VResult.ok ∧
    handle none (HandlerCand.funcCand userErrHandler) =
      (some [(orderCompletedType, userErrHandler)], none) ∧
    dispatchContext (some [(orderCompletedType, userErrHandler)]) CtxVal.background
        (some ⟨orderCompletedType, 0⟩) =
      DResult.panicked
        ("interface conversion: msgmux_test.myError is not error: missing method Error") :=
  ⟨rfl, rfl, rfl⟩

end Msgmux
